import Mathlib

/-!
Verification of the GPX File Merger (`merge_gpx.py`) against its
natural-language specification.

The development shallowly embeds the program: the `xml.etree.ElementTree`
element trees become the inductive `XmlElem`, Python `datetime` values become
the structure `PyDateTime`, and each method of `GPXMerger` (and the `main`
driver) becomes an executable Lean function of the same name.  File input,
glob expansion and the output byte stream are modelled by passing parse
results and returning the constructed output tree, exactly along the
boundaries the program's control flow draws.
-/

namespace GpxMerge

/-! ## XML element model (`xml.etree.ElementTree.Element`)

An element has a tag, an ordered attribute mapping, optional text, optional
tail text and an ordered list of child elements.  Parsed documents use Clark
notation for namespaced tags: `\x7buri\x7dlocal`. -/

inductive XmlElem : Type where
  | mk (tag : String) (attrib : List (String × String)) (text : Option String)
       (tail : Option String) (children : List XmlElem)

def XmlElem.tag : XmlElem → String
  | .mk t _ _ _ _ => t

def XmlElem.attrib : XmlElem → List (String × String)
  | .mk _ a _ _ _ => a

def XmlElem.text : XmlElem → Option String
  | .mk _ _ tx _ _ => tx

def XmlElem.tail : XmlElem → Option String
  | .mk _ _ _ tl _ => tl

def XmlElem.children : XmlElem → List XmlElem
  | .mk _ _ _ _ cs => cs

/-- `GPXMerger.GPX_NAMESPACE`. -/
def GPX_NAMESPACE : String := "http://www.topografix.com/GPX/1/1"

/-- Clark-notation qualified tag `\x7bGPX_NAMESPACE\x7dlocal`, the form
`ElementTree` gives to parsed namespaced tags and to the `"gpx:local"` paths
looked up through the namespace map `ns = ("gpx", GPX_NAMESPACE)`. -/
def qn (local_name : String) : String :=
  "\x7b" ++ GPX_NAMESPACE ++ "\x7d" ++ local_name

/-- `elem.find(path, ns)` for a single-step child path: the first direct child
whose tag matches. -/
def findChild (e : XmlElem) (t : String) : Option XmlElem :=
  e.children.find? (fun c => c.tag == t)

mutual
/-- `root.findall(".//" ++ tag, ns)`: all proper descendants with the given
tag, in document (preorder) order; the root itself is not a candidate. -/
def findallDesc (t : String) : XmlElem → List XmlElem
  | .mk _ _ _ _ cs => findallDescList t cs
def findallDescList (t : String) : List XmlElem → List XmlElem
  | [] => []
  | c :: cs => (if c.tag == t then [c] else []) ++ findallDesc t c ++ findallDescList t cs
end

mutual
/-- `GPXMerger._clone_element`: a fresh element with the same tag and
attributes, the same text and tail, and a recursive clone of every child. -/
def cloneElement : XmlElem → XmlElem
  | .mk t a tx tl cs => .mk t a tx tl (cloneList cs)
def cloneList : List XmlElem → List XmlElem
  | [] => []
  | c :: cs => cloneElement c :: cloneList cs
end

/-! ## Python `datetime` model

`datetime.fromisoformat` either yields a naive datetime (no UTC offset) or an
aware one carrying a fixed offset.  Ordering comparisons between a naive and
an aware datetime raise `TypeError`; equality between them is `False`. -/

structure PyDateTime where
  year : Nat
  month : Nat
  day : Nat
  hour : Nat
  minute : Nat
  second : Nat
  microsecond : Nat
  /-- `none` models a naive datetime (`tzinfo is None`); `some m` an aware one
  with a fixed UTC offset of `m` minutes. -/
  utcoffsetMinutes : Option Int
deriving DecidableEq

def isLeapYear (y : Nat) : Bool :=
  y % 4 == 0 && (y % 100 != 0 || y % 400 == 0)

def daysInMonth (y m : Nat) : Nat :=
  if m == 2 then (if isLeapYear y then 29 else 28)
  else if m == 4 || m == 6 || m == 9 || m == 11 then 30
  else 31

/-- Days from 1970-01-01 to the (valid, proleptic-Gregorian) civil date
`y-m-d`; the standard era-based conversion. -/
def daysFromCivil (y m d : Nat) : Int :=
  let y' : Nat := if m ≤ 2 then y - 1 else y
  let era : Nat := y' / 400
  let yoe : Nat := y' % 400
  let mp : Nat := (m + 9) % 12
  let doy : Nat := (153 * mp + 2) / 5 + d - 1
  let doe : Nat := yoe * 365 + yoe / 4 - yoe / 100 + doy
  (era * 146097 + doe : Int) - 719468

/-- The wall-clock reading of a datetime in microseconds from the epoch,
ignoring the offset. -/
def wallMicro (dt : PyDateTime) : Int :=
  (((daysFromCivil dt.year dt.month dt.day * 24 + dt.hour) * 60 + dt.minute) * 60
      + dt.second) * 1000000 + dt.microsecond

/-- The physical moment an aware datetime denotes, as microseconds from the
epoch: wall-clock reading minus the UTC offset.  (For a naive datetime the
offset defaults to `0`, but naive values are never compared through this.) -/
def epochMicro (dt : PyDateTime) : Int :=
  wallMicro dt - dt.utcoffsetMinutes.getD 0 * 60000000

/-- Field-by-field equality of the seven wall-clock components, which is how
Python compares two naive datetimes. -/
def sameWall (a b : PyDateTime) : Bool :=
  a.year == b.year && a.month == b.month && a.day == b.day && a.hour == b.hour
    && a.minute == b.minute && a.second == b.second && a.microsecond == b.microsecond

/-- Python `datetime.__eq__`: naive values compare by wall-clock fields, aware
values by the physical moment they denote; a naive and an aware value are
never equal. -/
def dtEq (a b : PyDateTime) : Bool :=
  match a.utcoffsetMinutes, b.utcoffsetMinutes with
  | none, none => sameWall a b
  | some _, some _ => epochMicro a == epochMicro b
  | _, _ => false

/-- Python `datetime.__lt__`: defined (`some`) between two naive or two aware
values; comparing a naive with an aware value raises `TypeError`, modelled as
`none`. -/
def dtLt (a b : PyDateTime) : Option Bool :=
  match a.utcoffsetMinutes, b.utcoffsetMinutes with
  | none, none => some (wallMicro a < wallMicro b)
  | some _, some _ => some (epochMicro a < epochMicro b)
  | _, _ => none

/-- `text.replace("Z", "+00:00")` at character level: for the single-character
pattern `"Z"`, Python's `str.replace` replaces every occurrence of the
character. -/
def replaceZChars : List Char → List Char
  | [] => []
  | c :: cs =>
    if c = 'Z' then '+' :: '0' :: '0' :: ':' :: '0' :: '0' :: replaceZChars cs
    else c :: replaceZChars cs

/-- `text.replace("Z", "+00:00")`. -/
def replaceZ (s : String) : String := ⟨replaceZChars s.data⟩

/-! ## `datetime.fromisoformat`

Model of the ISO-8601 core accepted by every supported Python version:
`YYYY-MM-DD`, optionally followed by a one-character separator and
`HH:MM[:SS[.digits]]` (fractions beyond six digits are truncated), optionally
followed by a numeric offset `±HH`, `±HHMM` or `±HH:MM`.  All calendar fields
are validated just as the `datetime` constructor validates them. -/

def charDigit (c : Char) : Option Nat :=
  if c.isDigit then some (c.toNat - 48) else none

def readDigits : Nat → List Char → Nat → Option (Nat × List Char)
  | 0, cs, acc => some (acc, cs)
  | _ + 1, [], _ => none
  | n + 1, c :: cs, acc =>
    match charDigit c with
    | some d => readDigits n cs (acc * 10 + d)
    | none => none

def digitsVal (ds : List Char) : Nat :=
  ds.foldl (fun a c => a * 10 + (c.toNat - 48)) 0

/-- Read a fractional-seconds field: one or more digits, truncated to
microsecond precision. -/
def readFraction (cs : List Char) : Option (Nat × List Char) :=
  let p := cs.span Char.isDigit
  if p.1.length == 0 then none
  else
    let kept := p.1.take 6
    some (digitsVal kept * 10 ^ (6 - kept.length), p.2)

/-- Read the trailing UTC-offset field (empty input means naive). -/
def readOffset : List Char → Option (Option Int)
  | [] => some none
  | c :: cs =>
    if c == '+' || c == '-' then
      match readDigits 2 cs 0 with
      | some (oh, rest) =>
        let fin : Nat → List Char → Option (Option Int) := fun om rest2 =>
          match rest2 with
          | [] =>
            if oh ≤ 23 && om ≤ 59 then
              let total : Int := (oh * 60 + om : Nat)
              some (some (if c == '-' then -total else total))
            else none
          | _ => none
        match rest with
        | [] => fin 0 []
        | ':' :: rest2 =>
          match readDigits 2 rest2 0 with
          | some (om, rest3) => fin om rest3
          | none => none
        | _ =>
          match readDigits 2 rest 0 with
          | some (om, rest3) => fin om rest3
          | none => none
      | none => none
    else none

/-- Read `HH:MM[:SS[.digits]]`. -/
def readTime (cs : List Char) : Option (Nat × Nat × Nat × Nat × List Char) :=
  match readDigits 2 cs 0 with
  | some (h, ':' :: cs1) =>
    match readDigits 2 cs1 0 with
    | some (mi, ':' :: cs2) =>
      match readDigits 2 cs2 0 with
      | some (s, '.' :: cs3) =>
        match readFraction cs3 with
        | some (us, cs4) => some (h, mi, s, us, cs4)
        | none => none
      | some (s, cs3) => some (h, mi, s, 0, cs3)
      | none => none
    | some (mi, cs2) => some (h, mi, 0, 0, cs2)
    | none => none
  | _ => none

/-- Validate the fields and build the datetime, as the `datetime` constructor
does. -/
def mkDateTime (y mo d h mi s us : Nat) (off : Option Int) : Option PyDateTime :=
  if 1 ≤ y && y ≤ 9999 && 1 ≤ mo && mo ≤ 12 && 1 ≤ d && d ≤ daysInMonth y mo
      && h ≤ 23 && mi ≤ 59 && s ≤ 59 then
    some ⟨y, mo, d, h, mi, s, us, off⟩
  else none

def fromisoformat (str : String) : Option PyDateTime :=
  match readDigits 4 str.toList 0 with
  | some (y, '-' :: cs1) =>
    match readDigits 2 cs1 0 with
    | some (mo, '-' :: cs2) =>
      match readDigits 2 cs2 0 with
      | some (d, []) => mkDateTime y mo d 0 0 0 0 none
      | some (d, _sep :: cs3) =>
        match readTime cs3 with
        | some (h, mi, s, us, rest) =>
          match readOffset rest with
          | some off => mkDateTime y mo d h mi s us off
          | none => none
        | none => none
      | none => none
    | _ => none
  | _ => none

/-! ## The merger -/

/-- One entry of `self.track_points`: the tuple
`(timestamp, point_element, file_path)`. -/
structure TrackPoint where
  timestamp : PyDateTime
  elem : XmlElem
  source : String

/-- The mutable state of a `GPXMerger` instance: `self.track_points` and
`self.metadata` (the dict modelled as an insertion-ordered association list;
a stored value may itself be `none`, Python's `None` element text). -/
structure MergerState where
  track_points : List TrackPoint
  metadata : List (String × Option String)

/-- `GPXMerger._extract_metadata`: find the `metadata` child of the root and
record the text of its `name` and `desc` children, each only if present. -/
def extract_metadata (st : MergerState) (root : XmlElem) : MergerState :=
  match findChild root (qn "metadata") with
  | none => st
  | some md =>
    let st1 :=
      match findChild md (qn "name") with
      | some nm => { st with metadata := st.metadata ++ [("name", nm.text)] }
      | none => st
    match findChild md (qn "desc") with
    | some ds => { st1 with metadata := st1.metadata ++ [("desc", ds.text)] }
    | none => st1

/-- The stderr warning printed for an unparsable timestamp. -/
def warnMsg (text file : String) : String :=
  "Warning: Could not parse timestamp \x27" ++ text ++ "\x27 from " ++ file

/-- The body of the per-candidate loop in `GPXMerger._extract_track_points`:
if the candidate has a `time` child with truthy text, parse it (after the
`"Z" -> "+00:00"` replacement); on success append a track point, on failure
append a warning; otherwise do nothing. -/
def processPoint (file : String) (acc : List TrackPoint × List String) (pt : XmlElem) :
    List TrackPoint × List String :=
  match findChild pt (qn "time") with
  | none => acc
  | some te =>
    match te.text with
    | none => acc
    | some s =>
      if s == "" then acc
      else
        match fromisoformat (replaceZ s) with
        | some ts => (acc.1 ++ [⟨ts, pt, file⟩], acc.2)
        | none => (acc.1, acc.2 ++ [warnMsg s file])

/-- `GPXMerger._extract_track_points`: loop over all `trkpt` descendants, then
over all `wpt` descendants, accumulating appended points and printed
warnings. -/
def extract_track_points (root : XmlElem) (file : String) :
    List TrackPoint × List String :=
  (findallDesc (qn "wpt") root).foldl (processPoint file)
    ((findallDesc (qn "trkpt") root).foldl (processPoint file) ([], []))

/-- `GPXMerger.parse_gpx_file` on a resolved, existing file: a parse failure
is re-raised as `ET.ParseError("Invalid GPX file '<path>': <detail>")`;
otherwise metadata is collected while `self.metadata` is still empty and all
track points are extracted and appended.  The returned list is the warnings
printed while extracting. -/
def parse_gpx_file (st : MergerState) (file : String) (doc : Except String XmlElem) :
    Except String (MergerState × List String) :=
  match doc with
  | .error e => .error ("Invalid GPX file \x27" ++ file ++ "\x27: " ++ e)
  | .ok root =>
    let st1 := if st.metadata == [] then extract_metadata st root else st
    let r := extract_track_points root file
    .ok ({ st1 with track_points := st1.track_points ++ r.1 }, r.2)

/-! ## Sorting

`sort_by_timestamp` is `self.track_points.sort(key=lambda x: x[0])`: a stable
sort by the datetime key.  Python's comparison between a naive and an aware
datetime raises `TypeError` (`dtLt` is `none` there); the Boolean order below
totalizes it by ranking naive keys before aware ones, and coincides with
Python's order on every pair on which Python's comparison is defined. -/

def dtRank (d : PyDateTime) : Nat :=
  match d.utcoffsetMinutes with
  | none => 0
  | some _ => 1

def dtVal (d : PyDateTime) : Int :=
  match d.utcoffsetMinutes with
  | none => wallMicro d
  | some _ => epochMicro d

def sortLe (a b : TrackPoint) : Bool :=
  decide (dtRank a.timestamp < dtRank b.timestamp ∨
    (dtRank a.timestamp = dtRank b.timestamp ∧ dtVal a.timestamp ≤ dtVal b.timestamp))

/-- `GPXMerger.sort_by_timestamp`. -/
def sort_by_timestamp (l : List TrackPoint) : List TrackPoint :=
  l.mergeSort sortLe

/-! ## Output construction (`GPXMerger.merge_to_file`) -/

/-- Python `dict.get(key, default)`: the stored value (which can itself be
`None`) if the key is present, the default otherwise. -/
def dictGet (d : List (String × Option String)) (k : String) (dflt : String) :
    Option String :=
  match d.lookup k with
  | some v => v
  | none => some dflt

/-- The output tree `merge_to_file` constructs: a root `gpx` element with
`version`, `creator` and a manually set `xmlns` attribute; a `metadata` block
with `name`, `desc` (falling back to the hardcoded defaults) and the
generation time; one `trk` with one `trkseg` holding a clone of every track
point in collection order.  `now` is `datetime.utcnow().isoformat()`. -/
def merged_output (tps : List TrackPoint) (md : List (String × Option String))
    (now : String) : XmlElem :=
  .mk "gpx" [("version", "1.1"), ("creator", "GPX Merger Script"),
             ("xmlns", GPX_NAMESPACE)] none none
    [ .mk "metadata" [] none none
        [ .mk "name" [] (dictGet md "name" "Merged GPX Track") none []
        , .mk "desc" [] (dictGet md "desc" "Merged from multiple GPX files") none []
        , .mk "time" [] (some (now ++ "Z")) none [] ]
    , .mk "trk" [] none none
        [ .mk "name" [] (some "Merged Track") none []
        , .mk "trkseg" [] none none (cloneList (tps.map TrackPoint.elem)) ] ]

structure MergeFileResult where
  /-- The tree written to the output path, if any. -/
  written : Option XmlElem
  stderrLines : List String
  stdoutLines : List String

/-- `GPXMerger.merge_to_file`: with no track points, print an error to stderr
and return without writing; otherwise build and write the output tree and
report path and point count on stdout. -/
def merge_to_file (st : MergerState) (output_path now : String) : MergeFileResult :=
  if st.track_points.isEmpty then
    ⟨none, ["Error: No track points found to merge."], []⟩
  else
    ⟨some (merged_output st.track_points st.metadata now), [],
      ["✓ Merged GPX file created: " ++ output_path,
       "  Total track points merged: " ++ toString st.track_points.length]⟩

/-! ## The `main` driver

Command-line parsing and glob expansion are out of scope; `mainRun` receives
the resolved input files, each paired with the outcome of parsing it
(`.error detail` models an `ET.ParseError` raised by `ET.parse`). -/

structure RunResult where
  exitCode : Nat
  written : Option XmlElem
  stderrLines : List String

/-- The `for gpx_file in input_files` loop of `main`: process files in order,
accumulating printed warnings; the first parse failure aborts. -/
def processFiles (st : MergerState) (warns : List String) :
    List (String × Except String XmlElem) →
    Except (List String × String) (MergerState × List String)
  | [] => .ok (st, warns)
  | (f, doc) :: rest =>
    match parse_gpx_file st f doc with
    | .error e => .error (warns, e)
    | .ok (st', w) => processFiles st' (warns ++ w) rest

/-- `main` after argument parsing: exit 1 if no input files resolved; parse
each file, exiting 1 with `"Error: ..."` on the first failure; then sort,
then `merge_to_file`; finally fall off the end of `main` (exit code 0). -/
def mainRun (inputs : List (String × Except String XmlElem))
    (output_path now : String) : RunResult :=
  if inputs.isEmpty then ⟨1, none, ["Error: No valid GPX files found."]⟩
  else
    match processFiles ⟨[], []⟩ [] inputs with
    | .error (w, e) => ⟨1, none, w ++ ["Error: " ++ e]⟩
    | .ok (st, w) =>
      let sorted : MergerState := { st with track_points := sort_by_timestamp st.track_points }
      let r := merge_to_file sorted output_path now
      ⟨0, r.written, w ++ r.stderrLines⟩

/-! ## Serialization of the output (`ElementTree.write`)

The class body runs `ET.register_namespace("", GPX_NAMESPACE)`, so when the
tree is written, every namespace URI appearing in a Clark-notation tag
anywhere in the tree is declared on the root start tag — the GPX namespace as
a default `xmlns` declaration — *before* the root's own attribute list, which
itself contains the manually set `xmlns` attribute. -/

mutual
/-- Whether any tag in the tree is Clark-qualified with the given URI. -/
def usesNamespace (uri : String) : XmlElem → Bool
  | .mk t _ _ _ cs =>
    ("\x7b" ++ uri ++ "\x7d").data.isPrefixOf t.data || usesNamespaceList uri cs
def usesNamespaceList (uri : String) : List XmlElem → Bool
  | [] => false
  | c :: cs => usesNamespace uri c || usesNamespaceList uri cs
end

/-- The attribute names the serializer writes on the root start tag:
namespace declarations first, then the element's own attributes in order. -/
def serializedRootAttrKeys (root : XmlElem) : List String :=
  (if usesNamespace GPX_NAMESPACE root then ["xmlns"] else []) ++ root.attrib.map Prod.fst

/-- Re-parsing the serialized output: a conformant XML parser — including the
expat parser `ET.parse` uses — rejects a start tag carrying two attributes
with the same name ("duplicate attribute"), and otherwise yields the tree
back. -/
def reparseOutput (g : XmlElem) : Except String XmlElem :=
  if (serializedRootAttrKeys g).Nodup then .ok g else .error "duplicate attribute"

/-! ## Vocabulary used in the claim statements -/

/-- The timestamp text a candidate point offers: the text of its `time`
child, if that child exists and its text is truthy. -/
def timeTextOf (pt : XmlElem) : Option String :=
  match findChild pt (qn "time") with
  | none => none
  | some te =>
    match te.text with
    | none => none
    | some s => if s == "" then none else some s

/-- The track point a candidate element contributes, if any. -/
def pointResult (file : String) (pt : XmlElem) : Option TrackPoint :=
  match timeTextOf pt with
  | none => none
  | some s =>
    match fromisoformat (replaceZ s) with
    | some d => some ⟨d, pt, file⟩
    | none => none

/-- The warning a candidate element causes to be printed, if any. -/
def warnResult (file : String) (pt : XmlElem) : Option String :=
  match timeTextOf pt with
  | none => none
  | some s =>
    match fromisoformat (replaceZ s) with
    | some _ => none
    | none => some (warnMsg s file)

/-- All candidate point elements of a document, in the order the extractor
visits them: every `trkpt` descendant first, then every `wpt` descendant. -/
def candidatesOf (root : XmlElem) : List XmlElem :=
  findallDesc (qn "trkpt") root ++ findallDesc (qn "wpt") root

/-- A collection whose timestamps are uniformly aware or uniformly naive —
the collections on which Python's datetime comparison (and hence the sort)
is defined everywhere. -/
def HomogAware (l : List TrackPoint) : Prop :=
  (∀ p ∈ l, p.timestamp.utcoffsetMinutes ≠ none) ∨
    (∀ p ∈ l, p.timestamp.utcoffsetMinutes = none)

/-- Navigate the output tree to the children of `trk/trkseg`. -/
def outTrksegChildren (g : XmlElem) : Option (List XmlElem) :=
  match findChild g "trk" with
  | some trk =>
    match findChild trk "trkseg" with
    | some seg => some seg.children
    | none => none
  | none => none

/-- Navigate the output tree to the text of `metadata/<field>`. -/
def metaFieldText (g : XmlElem) (field : String) : Option (Option String) :=
  match findChild g "metadata" with
  | some m =>
    match findChild m field with
    | some f => some f.text
    | none => none
  | none => none

/-! ## Concrete input documents for the scenario theorems -/

def timeEl (s : String) : XmlElem := .mk (qn "time") [] (some s) none []

def trkptEl (lat lon ts : String) : XmlElem :=
  .mk (qn "trkpt") [("lat", lat), ("lon", lon)] none none [timeEl ts]

def wptEl (lat lon ts : String) : XmlElem :=
  .mk (qn "wpt") [("lat", lat), ("lon", lon)] none none [timeEl ts]

def trkOf (pts : List XmlElem) : XmlElem :=
  .mk (qn "trk") [] none none [.mk (qn "trkseg") [] none none pts]

def metaEl (children : List XmlElem) : XmlElem :=
  .mk (qn "metadata") [] none none children

def textEl (tagName txt : String) : XmlElem :=
  .mk (qn tagName) [] (some txt) none []

def gpxRoot (children : List XmlElem) : XmlElem :=
  .mk (qn "gpx") [("version", "1.1")] none none children

/-- A well-formed document with no points at all. -/
def docNoPoints : XmlElem := gpxRoot []

/-- A well-formed document with a single timestamped track point. -/
def docOnePoint : XmlElem :=
  gpxRoot [trkOf [trkptEl "1.0" "2.0" "2023-01-01T00:00:00Z"]]

/-- D1 of the metadata scenario: name "A", no description, no points. -/
def docMetaA : XmlElem := gpxRoot [metaEl [textEl "name" "A"]]

/-- D2 of the metadata scenario: name "B", description "X", one point. -/
def docMetaBX : XmlElem :=
  gpxRoot [metaEl [textEl "name" "B", textEl "desc" "X"],
           trkOf [trkptEl "1.0" "2.0" "2023-01-01T00:00:00Z"]]

/-- A document whose `wpt` appears before its `trkpt` in document text, both
carrying the same instant. -/
def docWptFirst : XmlElem :=
  gpxRoot [wptEl "3.0" "4.0" "2023-01-01T00:00:00Z",
           trkOf [trkptEl "1.0" "2.0" "2023-01-01T00:00:00Z"]]

/-- A candidate point with no `time` child. -/
def ptNoTime : XmlElem :=
  .mk (qn "trkpt") [("lat", "0"), ("lon", "0")] none none []

/-- A candidate point whose timestamp text does not parse. -/
def ptBadTime : XmlElem :=
  .mk (qn "trkpt") [("lat", "0"), ("lon", "0")] none none [timeEl "corrupt"]

/-- Two aware track points denoting the same physical moment through
different offsets (00:00+00:00 and 01:00+01:00). -/
def tpUtc : TrackPoint :=
  ⟨⟨2023, 1, 1, 0, 0, 0, 0, some 0⟩, trkptEl "1.0" "2.0" "2023-01-01T00:00:00Z", "a.gpx"⟩

def tpPlusOne : TrackPoint :=
  ⟨⟨2023, 1, 1, 1, 0, 0, 0, some 60⟩, wptEl "3.0" "4.0" "2023-01-01T01:00:00+01:00", "b.gpx"⟩

/-- The track point `docOnePoint` yields. -/
def tpOne : TrackPoint :=
  ⟨⟨2023, 1, 1, 0, 0, 0, 0, some 0⟩,
    trkptEl "1.0" "2.0" "2023-01-01T00:00:00Z", "a.gpx"⟩

/-- The output tree the run on `docOnePoint` writes (generation time `"T"`). -/
def gOne : XmlElem := merged_output [tpOne] [] "T"

/-- The path point `docWptFirst` yields. -/
def tpTrkC : TrackPoint :=
  ⟨⟨2023, 1, 1, 0, 0, 0, 0, some 0⟩,
    trkptEl "1.0" "2.0" "2023-01-01T00:00:00Z", "c.gpx"⟩

/-- The marker point `docWptFirst` yields. -/
def tpWptC : TrackPoint :=
  ⟨⟨2023, 1, 1, 0, 0, 0, 0, some 0⟩,
    wptEl "3.0" "4.0" "2023-01-01T00:00:00Z", "c.gpx"⟩

/-! # Theorems -/

/-! ## Helper lemmas -/

mutual
theorem cloneElement_eq_self : ∀ e : XmlElem, cloneElement e = e
  | .mk t a tx tl cs => by rw [cloneElement, cloneList_eq_self]
theorem cloneList_eq_self : ∀ cs : List XmlElem, cloneList cs = cs
  | [] => rfl
  | c :: cs => by rw [cloneList, cloneElement_eq_self, cloneList_eq_self cs]
end

theorem processPoint_eq (file : String) (acc : List TrackPoint × List String)
    (pt : XmlElem) :
    processPoint file acc pt =
      (acc.1 ++ (pointResult file pt).toList, acc.2 ++ (warnResult file pt).toList) := by
  unfold processPoint pointResult warnResult timeTextOf
  cases hfc : findChild pt (qn "time") with
  | none => simp
  | some te =>
    cases htx : te.text with
    | none => simp [htx]
    | some s =>
      by_cases hs : s == ""
      · simp [htx, hs]
      · cases hf : fromisoformat (replaceZ s) <;> simp [htx, hs, hf]

theorem foldl_processPoint (file : String) (pts : List XmlElem)
    (acc : List TrackPoint × List String) :
    pts.foldl (processPoint file) acc =
      (acc.1 ++ pts.filterMap (pointResult file),
       acc.2 ++ pts.filterMap (warnResult file)) := by
  induction pts generalizing acc with
  | nil => simp
  | cons p ps ih =>
    rw [List.foldl_cons, processPoint_eq, ih]
    cases hp : pointResult file p <;> cases hw : warnResult file p <;>
      simp [List.filterMap_cons, hp, hw]

theorem extract_track_points_eq (root : XmlElem) (file : String) :
    extract_track_points root file =
      ((candidatesOf root).filterMap (pointResult file),
       (candidatesOf root).filterMap (warnResult file)) := by
  unfold extract_track_points candidatesOf
  rw [foldl_processPoint, foldl_processPoint]
  simp [List.filterMap_append]

/-! ## C2 -/

/-- C2: the copy of each point element placed in the output document is
structurally identical to the source element — same tag, attributes, text,
tail and descendant tree, recursively (`cloneElement` is the identity on the
tree value, so the clone appended to the output `trkseg` shares no mutable
structure with the source by construction) — and the `trkseg` of the merged
output holds exactly the source point elements in collection order, with
unknown sub-elements passed through unreinterpreted. -/
theorem clone_into_output_structural_identity :
    (∀ e : XmlElem, cloneElement e = e) ∧
    ∀ (tps : List TrackPoint) (md : List (String × Option String)) (now : String),
      outTrksegChildren (merged_output tps md now) = some (tps.map TrackPoint.elem) := by
  refine ⟨cloneElement_eq_self, ?_⟩
  intro tps md now
  have h : outTrksegChildren (merged_output tps md now) =
      some (cloneList (tps.map TrackPoint.elem)) := rfl
  rw [h, cloneList_eq_self]

/-! ## C5 -/

/-- C5: extraction processes every candidate point element of the document —
all `trkpt` descendants then all `wpt` descendants — and for each candidate
independently: with no `time` child or no (truthy) timestamp text it is
silently skipped, contributing neither a point nor a warning; with timestamp
text that fails to parse, exactly one warning naming the offending text and
the source document is printed and only that point is dropped; with parsable
text it contributes exactly its track point.  Extraction is total: a
point-level failure never fails the document. -/
theorem point_level_error_handling (root : XmlElem) (file : String) :
    extract_track_points root file =
      ((candidatesOf root).filterMap (pointResult file),
       (candidatesOf root).filterMap (warnResult file)) ∧
    (∀ pt : XmlElem, timeTextOf pt = none →
      pointResult file pt = none ∧ warnResult file pt = none) ∧
    (∀ (pt : XmlElem) (s : String), timeTextOf pt = some s →
      fromisoformat (replaceZ s) = none →
      pointResult file pt = none ∧
      warnResult file pt =
        some ("Warning: Could not parse timestamp \x27" ++ s ++ "\x27 from " ++ file)) ∧
    (∀ (pt : XmlElem) (s : String) (d : PyDateTime), timeTextOf pt = some s →
      fromisoformat (replaceZ s) = some d →
      pointResult file pt = some ⟨d, pt, file⟩ ∧ warnResult file pt = none) := by
  refine ⟨extract_track_points_eq root file, ?_, ?_, ?_⟩
  · intro pt h
    unfold pointResult warnResult
    rw [h]
    exact ⟨rfl, rfl⟩
  · intro pt s h hf
    unfold pointResult warnResult warnMsg
    rw [h]
    simp [hf]
  · intro pt s d h hf
    unfold pointResult warnResult
    rw [h]
    simp [hf]

/-- Witness for C5 at concrete inputs: a point with unparsable timestamp text
`"corrupt"` is dropped with the warning naming text and file, and a point
with no `time` child is skipped silently. -/
theorem point_level_error_handling_witness :
    (pointResult "a.gpx" ptBadTime = none ∧
      warnResult "a.gpx" ptBadTime =
        some ("Warning: Could not parse timestamp \x27corrupt\x27 from a.gpx")) ∧
    (pointResult "a.gpx" ptNoTime = none ∧ warnResult "a.gpx" ptNoTime = none) :=
  ⟨(point_level_error_handling docNoPoints "a.gpx").2.2.1 ptBadTime "corrupt" rfl rfl,
   (point_level_error_handling docNoPoints "a.gpx").2.1 ptNoTime rfl⟩

/-! ## C7 -/

/-- C7 counterexample: the claim "every successfully parsed Instant is
comparable with every other under a total ordering" is false on the code.
`"2023-01-01T00:00:00"` (no offset) parses successfully to a naive datetime
and `"2023-01-01T00:00:00+00:00"` to an aware one, but Python's ordering
comparison between them raises `TypeError` in both directions (modelled as
`dtLt = none`), so the sort key order is not total over parsed instants. -/
theorem naive_aware_incomparable :
    fromisoformat (replaceZ "2023-01-01T00:00:00") =
      some ⟨2023, 1, 1, 0, 0, 0, 0, none⟩ ∧
    fromisoformat (replaceZ "2023-01-01T00:00:00+00:00") =
      some ⟨2023, 1, 1, 0, 0, 0, 0, some 0⟩ ∧
    dtLt ⟨2023, 1, 1, 0, 0, 0, 0, none⟩ ⟨2023, 1, 1, 0, 0, 0, 0, some 0⟩ = none ∧
    dtLt ⟨2023, 1, 1, 0, 0, 0, 0, some 0⟩ ⟨2023, 1, 1, 0, 0, 0, 0, none⟩ = none :=
  ⟨rfl, rfl, rfl, rfl⟩

/-- C7 amended: every successfully parsed *offset-aware* instant is
comparable with every other aware instant (`dtLt` is defined and orders them
by the physical moment, a total order on integers), two aware instants
compare equal iff they denote the same physical moment regardless of the
original offset representation, and a timestamp with a trailing `Z` parses to
the same instant as the explicit `+00:00` form.  (Naive instants — parsed
from offset-free text — are comparable among themselves but not with aware
ones.) -/
theorem aware_instants_totally_comparable (a b : PyDateTime)
    (ha : a.utcoffsetMinutes.isSome = true) (hb : b.utcoffsetMinutes.isSome = true) :
    dtLt a b = some (decide (epochMicro a < epochMicro b)) ∧
    (dtEq a b = true ↔ epochMicro a = epochMicro b) ∧
    fromisoformat (replaceZ "2023-01-01T05:00:00Z") =
      fromisoformat (replaceZ "2023-01-01T05:00:00+00:00") ∧
    fromisoformat (replaceZ "2023-01-01T05:00:00Z") =
      some ⟨2023, 1, 1, 5, 0, 0, 0, some 0⟩ ∧
    dtEq ⟨2023, 1, 1, 5, 0, 0, 0, some 0⟩ ⟨2023, 1, 1, 6, 0, 0, 0, some 60⟩ = true := by
  obtain ⟨oa, hoa⟩ := Option.isSome_iff_exists.mp ha
  obtain ⟨ob, hob⟩ := Option.isSome_iff_exists.mp hb
  refine ⟨?_, ?_, rfl, rfl, rfl⟩
  · unfold dtLt
    rw [hoa, hob]
  · unfold dtEq
    rw [hoa, hob]
    simp

/-! ## C1 -/

theorem sortLe_trans (a b c : TrackPoint) (h1 : sortLe a b = true)
    (h2 : sortLe b c = true) : sortLe a c = true := by
  simp only [sortLe, decide_eq_true_eq] at *
  omega

theorem sortLe_total (a b : TrackPoint) : (sortLe a b || sortLe b a) = true := by
  simp only [sortLe, Bool.or_eq_true, decide_eq_true_eq]
  omega

theorem wallMicro_congr (x y : PyDateTime) (h : sameWall x y = true) :
    wallMicro x = wallMicro y := by
  unfold sameWall at h
  simp only [Bool.and_eq_true, beq_iff_eq] at h
  obtain ⟨⟨⟨⟨⟨⟨h1, h2⟩, h3⟩, h4⟩, h5⟩, h6⟩, h7⟩ := h
  unfold wallMicro
  rw [h1, h2, h3, h4, h5, h6, h7]

theorem sortLe_of_dtEq (a b : TrackPoint)
    (h : dtEq a.timestamp b.timestamp = true) : sortLe a b = true := by
  unfold dtEq at h
  unfold sortLe dtRank dtVal
  cases hx : a.timestamp.utcoffsetMinutes <;> cases hy : b.timestamp.utcoffsetMinutes <;>
    rw [hx, hy] at h <;> simp at h ⊢
  · exact le_of_eq (wallMicro_congr _ _ h)
  · exact le_of_eq h

theorem dtLt_of_rank_eq (x y : PyDateTime) (h : dtRank x = dtRank y) :
    dtLt x y = some (decide (dtVal x < dtVal y)) := by
  unfold dtRank at h
  unfold dtLt dtVal
  cases hx : x.utcoffsetMinutes <;> cases hy : y.utcoffsetMinutes <;> simp_all

/-- C1: after `sort_by_timestamp`, on any collection over which Python's
datetime comparison is defined (timestamps uniformly aware or uniformly
naive), the result is a permutation of the appended collection that is
non-decreasing by instant (no later element is less than an earlier one), and
the sort is stable with no secondary key: any two records appended in a given
order whose instants compare equal appear in the same relative order after
sorting. -/
theorem sort_stable_chronological (l : List TrackPoint) (h : HomogAware l) :
    (sort_by_timestamp l).Perm l ∧
    (sort_by_timestamp l).Pairwise
      (fun a b => dtLt b.timestamp a.timestamp = some false) ∧
    ∀ a b : TrackPoint, dtEq a.timestamp b.timestamp = true →
      [a, b].Sublist l → [a, b].Sublist (sort_by_timestamp l) := by
  refine ⟨List.mergeSort_perm l sortLe, ?_, ?_⟩
  · have hp := @List.sorted_mergeSort _ sortLe sortLe_trans sortLe_total l
    refine hp.imp_of_mem ?_
    intro a b ha hb hle
    have ha' : a ∈ l := (List.mergeSort_perm l sortLe).mem_iff.mp ha
    have hb' : b ∈ l := (List.mergeSort_perm l sortLe).mem_iff.mp hb
    have hrank : dtRank b.timestamp = dtRank a.timestamp := by
      unfold dtRank
      rcases h with h | h <;>
        [skip; skip] <;> have h1 := h a ha' <;> have h2 := h b hb' <;>
        cases hx : a.timestamp.utcoffsetMinutes <;>
        cases hy : b.timestamp.utcoffsetMinutes <;> simp_all
    have hval : dtVal a.timestamp ≤ dtVal b.timestamp := by
      simp only [sortLe, decide_eq_true_eq] at hle
      omega
    rw [dtLt_of_rank_eq _ _ hrank]
    simp
    omega
  · intro a b heq hsub
    exact List.pair_sublist_mergeSort sortLe_trans sortLe_total
      (sortLe_of_dtEq a b heq) hsub

/-- Witness for C1: two aware records carrying the same physical instant
through different offsets, appended in order, keep that order after
sorting. -/
theorem sort_stable_chronological_witness :
    [tpUtc, tpPlusOne].Sublist (sort_by_timestamp [tpUtc, tpPlusOne]) :=
  (sort_stable_chronological [tpUtc, tpPlusOne]
    (Or.inl (fun p hp => by
      rcases List.mem_cons.mp hp with rfl | hp2
      · decide
      · rcases List.mem_cons.mp hp2 with rfl | h2
        · decide
        · cases h2))).2.2 tpUtc tpPlusOne rfl (List.Sublist.refl _)

/-- Witness for C7 amended at concrete aware instants. -/
theorem aware_instants_totally_comparable_witness :
    dtLt ⟨2023, 1, 1, 5, 0, 0, 0, some 0⟩ ⟨2023, 1, 1, 6, 0, 0, 0, some 60⟩ =
      some (decide (epochMicro ⟨2023, 1, 1, 5, 0, 0, 0, some 0⟩ <
        epochMicro ⟨2023, 1, 1, 6, 0, 0, 0, some 60⟩)) ∧
    (dtEq ⟨2023, 1, 1, 5, 0, 0, 0, some 0⟩ ⟨2023, 1, 1, 6, 0, 0, 0, some 60⟩ = true ↔
      epochMicro ⟨2023, 1, 1, 5, 0, 0, 0, some 0⟩ =
        epochMicro ⟨2023, 1, 1, 6, 0, 0, 0, some 60⟩) :=
  ⟨(aware_instants_totally_comparable ⟨2023, 1, 1, 5, 0, 0, 0, some 0⟩
      ⟨2023, 1, 1, 6, 0, 0, 0, some 60⟩ rfl rfl).1,
   (aware_instants_totally_comparable ⟨2023, 1, 1, 5, 0, 0, 0, some 0⟩
      ⟨2023, 1, 1, 6, 0, 0, 0, some 60⟩ rfl rfl).2.1⟩

/-! ## C4 -/

theorem processFiles_error_of_first (pre : List (String × Except String XmlElem))
    (hpre : ∀ x ∈ pre, ∃ r, x.2 = Except.ok r) (st : MergerState) (w : List String)
    (f e : String) (rest : List (String × Except String XmlElem)) :
    ∃ w', processFiles st w (pre ++ (f, Except.error e) :: rest) =
      .error (w', "Invalid GPX file \x27" ++ f ++ "\x27: " ++ e) := by
  induction pre generalizing st w with
  | nil => exact ⟨w, rfl⟩
  | cons x xs ih =>
    obtain ⟨r, hr⟩ := hpre x (List.mem_cons_self x xs)
    obtain ⟨fx, dx⟩ := x
    simp only at hr
    subst hr
    simp only [List.cons_append, processFiles, parse_gpx_file]
    exact ih (fun y hy => hpre y (List.mem_cons_of_mem _ hy)) _ _

/-- C4: if an input document is not well-formed markup (its parse raises
`ET.ParseError`) and every earlier input parsed, the whole run aborts with
exit code 1, no output document is produced, and the last diagnostic line
names that source file; the failing document contributes no points (the
abort happens before the merge step, with no partial recovery). -/
theorem parse_error_aborts_run
    (pre : List (String × Except String XmlElem))
    (hpre : ∀ x ∈ pre, ∃ r, x.2 = Except.ok r)
    (f e : String) (rest : List (String × Except String XmlElem))
    (output_path now : String) :
    (mainRun (pre ++ (f, Except.error e) :: rest) output_path now).exitCode = 1 ∧
    (mainRun (pre ++ (f, Except.error e) :: rest) output_path now).written = none ∧
    ∃ w, (mainRun (pre ++ (f, Except.error e) :: rest) output_path now).stderrLines =
      w ++ ["Error: " ++ ("Invalid GPX file \x27" ++ f ++ "\x27: " ++ e)] := by
  obtain ⟨w', hw⟩ := processFiles_error_of_first pre hpre ⟨[], []⟩ [] f e rest
  have hne : (pre ++ (f, Except.error e) :: rest).isEmpty = false := by
    cases pre <;> rfl
  unfold mainRun
  rw [hne]
  simp only [Bool.false_eq_true, if_false, hw]
  exact ⟨trivial, trivial, w', rfl⟩

/-- Witness for C4: a run over a good file followed by a malformed one exits
1, writes nothing, and reports the malformed file by name. -/
theorem parse_error_aborts_run_witness :
    (mainRun [("a.gpx", Except.ok docNoPoints), ("bad.gpx", Except.error "syntax error")]
      "merged.gpx" "T").exitCode = 1 ∧
    (mainRun [("a.gpx", Except.ok docNoPoints), ("bad.gpx", Except.error "syntax error")]
      "merged.gpx" "T").written = none ∧
    ∃ w, (mainRun [("a.gpx", Except.ok docNoPoints), ("bad.gpx", Except.error "syntax error")]
      "merged.gpx" "T").stderrLines =
        w ++ ["Error: " ++ ("Invalid GPX file \x27bad.gpx\x27: " ++ "syntax error")] :=
  parse_error_aborts_run [("a.gpx", Except.ok docNoPoints)]
    (fun x hx => by
      rcases List.mem_cons.mp hx with rfl | h
      · exact ⟨docNoPoints, rfl⟩
      · cases h)
    "bad.gpx" "syntax error" [] "merged.gpx" "T"

/-! ## C6 -/

/-- C6: metadata is captured only while the running metadata is still empty,
so it is taken wholly from the first document that yields a field and no
later document overwrites it even partially.  In the D1/D2 scenario — D1
supplies name "A" and no description, D2 supplies name "B" and description
"X" — the captured metadata is exactly name "A", and the output document's
name is "A" while its description is the hardcoded default, not "X". -/
theorem metadata_first_document_wins :
    (∀ (st : MergerState) (f : String) (doc : Except String XmlElem)
        (st' : MergerState) (w : List String),
      st.metadata ≠ [] → parse_gpx_file st f doc = .ok (st', w) →
      st'.metadata = st.metadata) ∧
    (∃ st w, processFiles ⟨[], []⟩ []
        [("d1.gpx", Except.ok docMetaA), ("d2.gpx", Except.ok docMetaBX)] = .ok (st, w) ∧
      st.metadata = [("name", some "A")] ∧
      metaFieldText (merged_output st.track_points st.metadata "T") "name" =
        some (some "A") ∧
      metaFieldText (merged_output st.track_points st.metadata "T") "desc" =
        some (some "Merged from multiple GPX files")) := by
  constructor
  · intro st f doc st' w hne hok
    cases doc with
    | error e => exact absurd hok (by simp [parse_gpx_file])
    | ok root =>
      have hb : (st.metadata == []) = false := beq_eq_false_iff_ne.mpr hne
      unfold parse_gpx_file at hok
      rw [hb] at hok
      simp only [Bool.false_eq_true, if_false, Except.ok.injEq, Prod.mk.injEq] at hok
      rw [← hok.1]
  · exact ⟨⟨[⟨⟨2023, 1, 1, 0, 0, 0, 0, some 0⟩,
        trkptEl "1.0" "2.0" "2023-01-01T00:00:00Z", "d2.gpx"⟩],
        [("name", some "A")]⟩, [], rfl, rfl, rfl, rfl⟩

/-- Witness for C6: a merger whose metadata is already name "A" processes D2
(name "B", description "X") without its metadata changing. -/
theorem metadata_first_document_wins_witness :
    ∃ (st' : MergerState) (w : List String),
      parse_gpx_file ⟨[], [("name", some "A")]⟩ "d2.gpx" (Except.ok docMetaBX) =
        .ok (st', w) ∧ st'.metadata = [("name", some "A")] :=
  ⟨⟨[⟨⟨2023, 1, 1, 0, 0, 0, 0, some 0⟩,
      trkptEl "1.0" "2.0" "2023-01-01T00:00:00Z", "d2.gpx"⟩], [("name", some "A")]⟩, [],
    rfl,
    metadata_first_document_wins.1 ⟨[], [("name", some "A")]⟩ "d2.gpx"
      (Except.ok docMetaBX) _ _ (by simp) rfl⟩

/-! ## C3 -/

theorem sort_by_timestamp_nil : sort_by_timestamp [] = [] :=
  List.mergeSort_nil

/-- C3 counterexample: with one well-formed input yielding no usable points,
the run writes no file and prints the "no track points" error, but it exits
with code 0 — a successful exit code — refuting the claim that the overall
process does not exit successfully.  The error is also only printed, not
signalled to `main`: `merge_to_file` returns normally. -/
theorem empty_collection_exits_successfully :
    mainRun [("a.gpx", Except.ok docNoPoints)] "merged.gpx" "T" =
      ⟨0, none, ["Error: No track points found to merge."]⟩ := by
  show (⟨0, (merge_to_file ⟨sort_by_timestamp [], []⟩ "merged.gpx" "T").written,
      [] ++ (merge_to_file ⟨sort_by_timestamp [], []⟩ "merged.gpx" "T").stderrLines⟩ :
      RunResult) = _
  rw [sort_by_timestamp_nil]
  rfl

/-- C3 amended: if the merged collection is empty after processing all
inputs, the builder writes no output file and prints the
"No track points found to merge." error on the diagnostic stream — distinct
from a silent empty write — but `merge_to_file` returns normally and the
process completes with exit code 0 (a successful code). -/
theorem empty_collection_error_but_exit_zero
    (inputs : List (String × Except String XmlElem)) (output_path now : String)
    (st : MergerState) (w : List String)
    (hne : inputs.isEmpty = false)
    (hok : processFiles ⟨[], []⟩ [] inputs = .ok (st, w))
    (hempty : st.track_points = []) :
    mainRun inputs output_path now =
      ⟨0, none, w ++ ["Error: No track points found to merge."]⟩ := by
  unfold mainRun
  rw [hne]
  simp only [Bool.false_eq_true, if_false, hok]
  rw [hempty, sort_by_timestamp_nil]
  rfl

/-- Witness for C3 amended at a concrete run with no usable points. -/
theorem empty_collection_error_but_exit_zero_witness :
    mainRun [("a.gpx", Except.ok docNoPoints)] "out.gpx" "T" =
      ⟨0, none, ["Error: No track points found to merge."]⟩ :=
  empty_collection_error_but_exit_zero [("a.gpx", Except.ok docNoPoints)]
    "out.gpx" "T" ⟨[], []⟩ [] rfl rfl rfl

/-! ## C8 and C9 -/

theorem firstRun_writes_gOne :
    mainRun [("a.gpx", Except.ok docOnePoint)] "merged.gpx" "T" =
      ⟨0, some gOne, []⟩ := by
  have hs : sort_by_timestamp [tpOne] = [tpOne] := List.mergeSort_singleton tpOne
  show (⟨0, (merge_to_file ⟨sort_by_timestamp [tpOne], []⟩ "merged.gpx" "T").written,
      [] ++ (merge_to_file ⟨sort_by_timestamp [tpOne], []⟩ "merged.gpx" "T").stderrLines⟩ :
      RunResult) = _
  rw [hs]
  rfl

/-- C8 (code bug): the written root does carry the canonical GPX namespace —
the manually set `xmlns` attribute — and the cloned points carry it in their
Clark-qualified tags, but because of that the serializer *also* emits a
default `xmlns` declaration for the same namespace on the root start tag, so
the root serializes with the attribute name `xmlns` twice.  A document with a
duplicate attribute is not well-formed, so it is rejected by conformant
generic readers rather than being interoperable. -/
theorem duplicate_xmlns_on_serialized_root :
    (mainRun [("a.gpx", Except.ok docOnePoint)] "merged.gpx" "T").written = some gOne ∧
    serializedRootAttrKeys gOne = ["xmlns", "version", "creator", "xmlns"] ∧
    ¬ (serializedRootAttrKeys gOne).Nodup := by
  refine ⟨?_, rfl, by decide⟩
  rw [firstRun_writes_gOne]

/-- C9 (code bug): idempotence fails.  The first merge writes `gOne`, whose
root start tag serializes with a duplicate `xmlns` attribute; re-parsing the
written document therefore raises a parse error, and a second run on that
single document alone aborts with exit code 1 and writes nothing, instead of
reproducing the same ordered point sequence. -/
theorem remerge_of_output_rejected :
    (mainRun [("a.gpx", Except.ok docOnePoint)] "merged.gpx" "T").written = some gOne ∧
    reparseOutput gOne = .error "duplicate attribute" ∧
    mainRun [("merged.gpx", reparseOutput gOne)] "merged_again.gpx" "T2" =
      ⟨1, none, ["Error: Invalid GPX file \x27merged.gpx\x27: duplicate attribute"]⟩ := by
  refine ⟨?_, rfl, rfl⟩
  rw [firstRun_writes_gOne]

/-! ## C10 -/

/-- C10: for every document, extraction yields all `trkpt` candidates in
document order first and all `wpt` candidates in document order after them;
consequently, in the scenario where a `wpt` appears before a `trkpt` in
document text with the same instant, the merged output still places the
`trkpt` before the `wpt` (the stable sort preserves the extraction order of
the tied pair). -/
theorem trkpt_extracted_before_wpt :
    (∀ (root : XmlElem) (file : String),
      (extract_track_points root file).1 =
        (findallDesc (qn "trkpt") root).filterMap (pointResult file) ++
          (findallDesc (qn "wpt") root).filterMap (pointResult file)) ∧
    (mainRun [("c.gpx", Except.ok docWptFirst)] "merged.gpx" "T").written =
      some (merged_output [tpTrkC, tpWptC] [] "T") ∧
    outTrksegChildren (merged_output [tpTrkC, tpWptC] [] "T") =
      some [trkptEl "1.0" "2.0" "2023-01-01T00:00:00Z",
            wptEl "3.0" "4.0" "2023-01-01T00:00:00Z"] := by
  refine ⟨?_, ?_, rfl⟩
  · intro root file
    rw [extract_track_points_eq]
    simp [candidatesOf, List.filterMap_append]
  · have hs : sort_by_timestamp [tpTrkC, tpWptC] = [tpTrkC, tpWptC] :=
      List.mergeSort_of_sorted (by
        constructor
        · intro b hb
          have hb' : b = tpWptC := by simpa using hb
          subst hb'
          rfl
        · simp)
    show (merge_to_file ⟨sort_by_timestamp [tpTrkC, tpWptC], []⟩ "merged.gpx" "T").written =
      some (merged_output [tpTrkC, tpWptC] [] "T")
    rw [hs]
    rfl

end GpxMerge
